import Mathlib

/-!
Shallow embedding of the ViolAI real-time pipeline
(`src/utils/angle_calculator.py`, `src/utils/bow_direction.py`,
`src/utils/posture_analyzer.py`, `src/utils/calibration.py`,
`src/utils/rhythm_trainer.py`).

Modelling conventions:
* Landmark coordinates and timestamps are rationals (the Python floats of
  the source); the state machines (bow-direction detector, rhythm trainer,
  posture comparator) are written over an arbitrary `LinearOrderedField`
  so that they can be evaluated on `ℚ` and composed with `ℝ`-valued angles.
* A three-point angle `degrees(arccos(clip(dot/(|ba|*|bc|), -1, 1)))` is an
  irrational real.  Its pre-`arccos` data is rational, so an angle value is
  represented by the triple `AngleData` = (dot product, squared norm of the
  first ray, squared norm of the second ray); the real number it denotes is
  recovered by `angleVal`.  When the denominator `|ba|*|bc|` is zero the
  Python expression `0.0/0.0` evaluates to NaN, which `np.clip` and
  `np.arccos` propagate; NaN is modelled by `Option.none`.
* The five direction strings "Up bow" / "Down bow" / "Holding" /
  "Not detected" / "Calibrating..." of the source are the enum `Dir`.
-/

/-- Bow-direction vocabulary: the five literal strings produced by
`BowDirectionDetector` and consumed by `RhythmTrainer`. -/
inductive Dir : Type
  | up            -- "Up bow"
  | down          -- "Down bow"
  | holding       -- "Holding"
  | notDetected   -- "Not detected"
  | calibrating   -- "Calibrating..."
deriving DecidableEq, Repr

/-- A MediaPipe landmark: normalized x, y, z coordinates. -/
structure Point : Type where
  x : ℚ
  y : ℚ
  z : ℚ
deriving DecidableEq, Repr

/-- A pose frame: landmark lookup by index (`landmarks.landmark[idx]`). -/
def Frame : Type := ℕ → Point

/-- The rational data of a three-point angle: the dot product of the two
rays and the squared norms of the rays.  The angle it denotes is
`degrees(arccos(clip(dot / (sqrt sq1 * sqrt sq2), -1, 1)))`. -/
structure AngleData : Type where
  dot : ℚ
  sq1 : ℚ
  sq2 : ℚ
deriving DecidableEq, Repr

/-- `np.clip(x, -1.0, 1.0)`. -/
noncomputable def clip1 (x : ℝ) : ℝ := max (-1) (min 1 x)

/-- The real number denoted by an `AngleData`:
`np.degrees(np.arccos(np.clip(dot/(norm1*norm2), -1, 1)))`. -/
noncomputable def angleVal (d : AngleData) : ℝ :=
  Real.arccos (clip1 ((d.dot : ℝ) / (Real.sqrt (d.sq1 : ℝ) * Real.sqrt (d.sq2 : ℝ)))) *
    (180 / Real.pi)

/-- Real value of an optional angle (`none` models NaN). -/
noncomputable def angleValOpt : Option AngleData → Option ℝ
  | none => none
  | some d => some (angleVal d)

/-- `AngleCalculator._calculate_angle(a, b, c)` (also the identical copy
`Calibrator._calculate_angle`): the angle at vertex `b` between rays
`b→a` and `b→c`, using only the x and y coordinates.  When a ray has zero
length the float division `0.0/0.0` yields NaN (no exception is raised),
which propagates through `np.clip` and `np.arccos`; that NaN outcome is
`none`. -/
def calcAngle (a b c : Point) : Option AngleData :=
  let bax := a.x - b.x
  let bay := a.y - b.y
  let bcx := c.x - b.x
  let bcy := c.y - b.y
  let sq1 := bax * bax + bay * bay
  let sq2 := bcx * bcx + bcy * bcy
  if sq1 * sq2 = 0 then none
  else some ⟨bax * bcx + bay * bcy, sq1, sq2⟩

/-- `AngleCalculator._midpoint(p1, p2)`. -/
def midpointP (p1 p2 : Point) : Point :=
  ⟨(p1.x + p2.x) / 2, (p1.y + p2.y) / 2, (p1.z + p2.z) / 2⟩

/-- `AngleCalculator._calculate_vertical_angle(top, bottom)`: the angle of
the segment top→bottom from the vertical unit vector (0, 1).  The vertical
vector has norm 1, so the angle data is
(dot = bottom.y - top.y, sq1 = |line|², sq2 = 1); the result is NaN
(`none`) exactly when the line vector is zero. -/
def calcVerticalAngle (top bottom : Point) : Option AngleData :=
  let dx := bottom.x - top.x
  let dy := bottom.y - top.y
  let sq1 := dx * dx + dy * dy
  if sq1 * 1 = 0 then none
  else some ⟨dy, sq1, 1⟩

/-- The four posture angles of `AngleCalculator.calculate_posture_angles`
(landmarks present).  All four keys are always present in the returned
dict; an individual value is `none` when the float computation produced
NaN. -/
structure PostureAnglesData : Type where
  back_vertical : Option AngleData
  left_shoulder : Option AngleData
  right_shoulder : Option AngleData
  neck : Option AngleData
deriving DecidableEq, Repr

/-- `AngleCalculator.calculate_posture_angles(landmarks)` for a present
frame (with absent landmarks the source returns `None` before reaching
this computation). -/
def calcPostureAngles (f : Frame) : PostureAnglesData :=
  let shoulderMid := midpointP (f 11) (f 12)
  let hipMid := midpointP (f 23) (f 24)
  { back_vertical := calcVerticalAngle shoulderMid hipMid
    left_shoulder := calcAngle (f 13) (f 11) (f 23)
    right_shoulder := calcAngle (f 14) (f 12) (f 24)
    neck := calcAngle (f 0) shoulderMid hipMid }

/-! ## RhythmTrainer (`src/utils/rhythm_trainer.py`) -/

/-- `RhythmTrainer.twinkle_pattern = ["Down bow", "Up bow"] * 16`. -/
def twinklePattern : List Dir := (List.replicate 16 [Dir.down, Dir.up]).flatten

/-- Mutable state of a `RhythmTrainer`. -/
structure TState (α : Type) : Type where
  currentPosition : ℕ
  lastDirection : Option Dir
  correctCount : ℕ
  incorrectCount : ℕ
  lastUpdateTime : α
deriving DecidableEq, Repr

/-- `RhythmTrainer.__init__` / `reset_progress` at clock time `t0`. -/
def trainInit {α : Type} (t0 : α) : TState α :=
  ⟨0, none, 0, 0, t0⟩

/-- Status strings returned by `RhythmTrainer.update_progress`; each
constructor stands for one f-string template of the source. -/
inductive TMsg : Type
  | waiting                                -- "Waiting for bow movement..."
  | progress (pos : ℕ) (next : Dir)        -- _get_status_message()
  | correctMsg (d : Dir)                   -- "Correct! {d} detected."
  | oopsMsg (expected detected : Dir)      -- "Oops! Expected {e}, but detected {d}."
  | currentMsg (d : Dir) (next : Dir)      -- "Current bow: {d}, next expected: {n}"
deriving DecidableEq, Repr

/-- `RhythmTrainer.update_progress(current_direction)` at clock time `t`.
Returns the updated state and the `(status, current_position)` pair the
source returns. -/
def updateProgress {α : Type} [LinearOrderedField α]
    (d : Dir) (t : α) (s : TState α) : TState α × (TMsg × ℕ) :=
  if d = Dir.notDetected ∨ d = Dir.calibrating ∨ d = Dir.holding then
    (s, (TMsg.waiting, s.currentPosition))
  else if some d ≠ s.lastDirection ∧ s.lastDirection ≠ none then
    if t - s.lastUpdateTime < 1/2 then
      (s, (TMsg.progress s.currentPosition
             (twinklePattern.getD s.currentPosition Dir.down), s.currentPosition))
    else
      let expected := twinklePattern.getD s.currentPosition Dir.down
      let status := if d = expected then TMsg.correctMsg d else TMsg.oopsMsg expected d
      let s' : TState α :=
        { currentPosition := (s.currentPosition + 1) % twinklePattern.length
          lastDirection := some d
          correctCount := if d = expected then s.correctCount + 1 else s.correctCount
          incorrectCount := if d = expected then s.incorrectCount else s.incorrectCount + 1
          lastUpdateTime := t }
      (s', (status, s'.currentPosition))
  else
    ({ s with lastDirection := some d },
     (TMsg.currentMsg d (twinklePattern.getD s.currentPosition Dir.down),
      s.currentPosition))

/-- Fold `update_progress` over a list of (direction, time) inputs. -/
def trainRun {α : Type} [LinearOrderedField α]
    (l : List (Dir × α)) (s : TState α) : TState α :=
  l.foldl (fun s p => (updateProgress p.1 p.2 s).1) s

/-- The input of the C1 run: the direction sequence Down, Up repeated 32
times (64 updates), with the k-th update at time k+1 seconds (spacing 1 s,
comfortably above the 500 ms minimum). -/
def c1Input : List (Dir × ℚ) :=
  (List.range 64).map
    (fun (i : ℕ) => ((if i % 2 = 0 then Dir.down else Dir.up), (i : ℚ) + 1))

/-! ## BowDirectionDetector (`src/utils/bow_direction.py`) -/

/-- The per-category confidence counters `state_confidence`; saturating
decrement `max(0, x - 1)` is natural-number truncated subtraction. -/
structure Conf : Type where
  up : ℕ
  down : ℕ
  holding : ℕ
deriving DecidableEq, Repr

/-- Counter of a direction (only Up/Down/Holding keys exist in the dict;
the other two directions are never looked up). -/
def Conf.val (c : Conf) : Dir → ℕ
  | Dir.up => c.up
  | Dir.down => c.down
  | Dir.holding => c.holding
  | _ => 0

/-- `max(self.state_confidence, key=self.state_confidence.get)`: Python's
`max` scans the keys in insertion order "Up bow", "Down bow", "Holding"
and keeps the current key unless a later one is strictly larger. -/
def Conf.argmax (c : Conf) : Dir :=
  let m1 := if c.up < c.down then Dir.down else Dir.up
  if c.val m1 < c.holding then Dir.holding else m1

/-- Confidence update of `detect_bow_direction` lines 69-83: the detected
candidate's counter is incremented, the other two are decremented with a
floor at 0. -/
def trendConf {α : Type} [LinearOrderedField α] (avgChange : α) (c : Conf) : Conf :=
  if 3/2 < avgChange then
    ⟨c.up - 1, c.down + 1, c.holding - 1⟩
  else if avgChange < -(3/2) then
    ⟨c.up + 1, c.down - 1, c.holding - 1⟩
  else
    ⟨c.up - 1, c.down - 1, c.holding + 1⟩

/-- `self.state_confidence = {k: 0 for k in self.state_confidence}` then
`self.state_confidence[direction] = self.confidence_threshold`. -/
def resetConf : Dir → Conf
  | Dir.up => ⟨3, 0, 0⟩
  | Dir.down => ⟨0, 3, 0⟩
  | Dir.holding => ⟨0, 0, 3⟩
  | _ => ⟨0, 0, 0⟩

/-- Append then drop the oldest element once when the bound is exceeded
(`append` followed by a single `pop(0)`). -/
def pushTrim {χ : Type} (bound : ℕ) (x : χ) (l : List χ) : List χ :=
  let l' := l ++ [x]
  if bound < l'.length then l'.tail else l'

/-- `[h[i] - h[i-1] for i in range(1, len(h))]`. -/
def diffs {α : Type} [LinearOrderedField α] : List α → List α
  | a :: b :: t => (b - a) :: diffs (b :: t)
  | _ => []

/-- Mutable state of a `BowDirectionDetector` (the fields of `__init__`
that `detect_bow_direction` reads or writes). -/
structure DetState (α : Type) : Type where
  angleHistory : List α
  conf : Conf
  currentDirection : Dir
  lastDirectionChange : α
  directionHistory : List Dir
deriving DecidableEq, Repr

/-- `BowDirectionDetector.__init__` at clock time `t0`. -/
def detInit {α : Type} (t0 : α) : DetState α :=
  ⟨[], ⟨0, 0, 0⟩, Dir.notDetected, t0, []⟩

/-- The average frame-to-frame change over the (already pushed) history
(`sum(angle_changes) / len(angle_changes)`). -/
def detAvg {α : Type} [LinearOrderedField α] (hist : List α) : α :=
  (diffs hist).sum / ((diffs hist).length : α)

/-- The confidence counters after processing one angle sample `a`:
the trend update applied to the average change over the pushed history. -/
def detConfAfter {α : Type} [LinearOrderedField α] (a : α) (s : DetState α) : Conf :=
  trendConf (detAvg (pushTrim 5 a s.angleHistory)) s.conf

/-- The body of `detect_bow_direction` from line 42 on, applied to the
already-computed smoothed elbow angle (`current_angle`).  Returns the new
state and the returned `(direction, angle)` pair. -/
def detectUpdate {α : Type} [LinearOrderedField α]
    (ang : Option α) (t : α) (s : DetState α) : DetState α × (Dir × Option α) :=
  match ang with
  | none => (s, (Dir.notDetected, none))
  | some a =>
    let hist := pushTrim 5 a s.angleHistory
    if hist.length < 3 then
      ({ s with angleHistory := hist }, (Dir.calibrating, some a))
    else
      let c1 := detConfAfter a s
      let dir := if 3 ≤ c1.val c1.argmax then c1.argmax else s.currentDirection
      if dir ≠ s.currentDirection ∧ 2/5 < t - s.lastDirectionChange then
        let c2 := if dir ≠ Dir.holding then resetConf dir else c1
        (⟨hist, c2, dir, t, pushTrim 3 dir s.directionHistory⟩, (dir, some a))
      else
        (⟨hist, c1, s.currentDirection, s.lastDirectionChange,
           pushTrim 3 s.currentDirection s.directionHistory⟩,
         (s.currentDirection, some a))

/-- State of the `AngleCalculator` instance owned by the detector: its
elbow-angle smoothing window. -/
structure ACState : Type where
  angleHistory : List ℝ

/-- `AngleCalculator.get_smoothed_angle`. -/
noncomputable def getSmoothedAngle (s : ACState) : Option ℝ :=
  if s.angleHistory.isEmpty then none
  else some (s.angleHistory.sum / (s.angleHistory.length : ℝ))

/-- `AngleCalculator.calculate_elbow_angle(landmarks)`: the right
shoulder(12)-elbow(14)-wrist(16) angle, pushed into the capacity-5
smoothing window; returns the window mean. -/
noncomputable def calculateElbowAngle (lm : Option Frame) (s : ACState) :
    ACState × Option ℝ :=
  match lm with
  | none => (s, none)
  | some f =>
    match angleValOpt (calcAngle (f 12) (f 14) (f 16)) with
    | none => (s, none)      -- NaN angle: pushed as NaN, mean is NaN
    | some a =>
      let s' : ACState := ⟨pushTrim 5 a s.angleHistory⟩
      (s', getSmoothedAngle s')

/-- `BowDirectionDetector.detect_bow_direction(landmarks)` (without the
optional visualization frame): with absent landmarks it returns
`("Not detected", None)` before touching any state; otherwise it computes
the smoothed elbow angle and runs the classification body. -/
noncomputable def detectBowDirection (lm : Option Frame) (t : ℝ)
    (st : ACState × DetState ℝ) : (ACState × DetState ℝ) × (Dir × Option ℝ) :=
  match lm with
  | none => (st, (Dir.notDetected, none))
  | some f =>
    let (ac', ang) := calculateElbowAngle (some f) st.1
    let (d', out) := detectUpdate ang t st.2
    ((ac', d'), out)

/-- Fold `detectUpdate` over a list of (angle, time) inputs. -/
def detRun {α : Type} [LinearOrderedField α]
    (l : List (Option α × α)) (s : DetState α) : DetState α :=
  l.foldl (fun s p => (detectUpdate p.1 p.2 s).1) s

/-! ## Calibrator (`src/utils/calibration.py`) -/

/-- `Calibrator._extract_posture_data(landmarks)`: raw coordinates of the
9 posture landmarks plus the three derived angles.  The "back" angle is
the three-point angle with vertex at the nose (0) between the left
shoulder (11) and the left hip (23). -/
structure PostureData : Type where
  coords : List (ℕ × Point)
  left_shoulder : Option AngleData
  right_shoulder : Option AngleData
  back : Option AngleData
deriving DecidableEq, Repr

/-- The 9 landmark indices stored by `_extract_posture_data`. -/
def postureLandmarkIdx : List ℕ := [0, 11, 12, 23, 24, 13, 14, 15, 16]

/-- `Calibrator._extract_posture_data(landmarks)`. -/
def extractPostureData (f : Frame) : PostureData :=
  { coords := postureLandmarkIdx.map (fun i => (i, f i))
    left_shoulder := calcAngle (f 13) (f 11) (f 23)
    right_shoulder := calcAngle (f 14) (f 12) (f 24)
    back := calcAngle (f 11) (f 0) (f 23) }

/-- `Calibrator._extract_bow_position(landmarks)`. -/
structure BowData : Type where
  coords : List (ℕ × Point)
  elbow_angle : Option AngleData
deriving DecidableEq, Repr

/-- `Calibrator._extract_bow_position(landmarks)`: right elbow (14),
shoulder (12), wrist (16) coordinates plus the elbow angle. -/
def extractBowPosition (f : Frame) : BowData :=
  { coords := [14, 12, 16].map (fun i => (i, f i))
    elbow_angle := calcAngle (f 12) (f 14) (f 16) }

/-- `Calibrator._extract_finger_position(landmarks)`: left elbow (13),
shoulder (11), wrist (15) coordinates. -/
def extractFingerPosition (f : Frame) : List (ℕ × Point) :=
  [13, 11, 15].map (fun i => (i, f i))

/-- The `bow_positions` dict: three optional per-step snapshots. -/
structure BowMap : Type where
  frog : Option BowData
  middle : Option BowData
  tip : Option BowData
deriving DecidableEq, Repr

/-- The `finger_positions` dict: three optional per-step snapshots. -/
structure FingerMap : Type where
  first : Option (List (ℕ × Point))
  third : Option (List (ℕ × Point))
  high : Option (List (ℕ × Point))
deriving DecidableEq, Repr

/-- Mutable state of a `Calibrator`.  `bowPositions`/`fingerPositions` are
`Option`-wrapped because `set_calibration_data` can replace the dicts by
`None`; `none` there marks that case (in which the source would raise on
the next per-step item assignment — unreachable from `__init__`). -/
structure CalState : Type where
  postureReference : Option PostureData
  bowPositions : Option BowMap
  fingerPositions : Option FingerMap
  currentLandmarks : Option Frame
  calibrationTimestamp : Option ℚ
  calibrationCountdown : ℚ
  countdownStartTime : Option ℚ

/-- `Calibrator.__init__`. -/
def calInit : CalState :=
  { postureReference := none
    bowPositions := some ⟨none, none, none⟩
    fingerPositions := some ⟨none, none, none⟩
    currentLandmarks := none
    calibrationTimestamp := none
    calibrationCountdown := 0
    countdownStartTime := none }

/-- Store the snapshot for a calibration step (the step dispatch of
`save_position` lines 95-115). -/
def storeStep (step : ℕ) (f : Frame) (s : CalState) : CalState :=
  if step = 0 then
    { s with postureReference := some (extractPostureData f) }
  else if step = 1 then
    { s with bowPositions :=
        s.bowPositions.map (fun m => { m with frog := some (extractBowPosition f) }) }
  else if step = 2 then
    { s with bowPositions :=
        s.bowPositions.map (fun m => { m with middle := some (extractBowPosition f) }) }
  else if step = 3 then
    { s with bowPositions :=
        s.bowPositions.map (fun m => { m with tip := some (extractBowPosition f) }) }
  else if step = 4 then
    { s with fingerPositions :=
        s.fingerPositions.map (fun m => { m with first := some (extractFingerPosition f) }) }
  else if step = 5 then
    { s with fingerPositions :=
        s.fingerPositions.map (fun m => { m with third := some (extractFingerPosition f) }) }
  else if step = 6 then
    { s with fingerPositions :=
        s.fingerPositions.map (fun m => { m with high := some (extractFingerPosition f) }) }
  else s

/-- `Calibrator.save_position(step)` at clock time `t`.  Returns the new
state and the success boolean:
* no landmarks: return `False`, touch nothing;
* no countdown running: start the 3-second countdown, return `False`;
* countdown running and fewer than 3 seconds elapsed: return `False`;
* otherwise store the snapshot for `step`, reset the countdown, stamp the
  calibration timestamp, return `True`. -/
def savePosition (step : ℕ) (t : ℚ) (s : CalState) : CalState × Bool :=
  match s.currentLandmarks with
  | none => (s, false)
  | some f =>
    if s.calibrationCountdown = 0 then
      ({ s with calibrationCountdown := 3, countdownStartTime := some t }, false)
    else if 0 < s.calibrationCountdown ∧
        t - (s.countdownStartTime.getD 0) < s.calibrationCountdown then
      (s, false)
    else
      let s' := storeStep step f s
      ({ s' with calibrationCountdown := 0, calibrationTimestamp := some t }, true)

/-- A calibration record as loaded from storage: the result of the four
`data.get(...)` lookups of `set_calibration_data` (`none` = key missing,
so the lookup returned Python `None`). -/
structure CalRecord : Type where
  posture_reference : Option PostureData
  bow_positions : Option BowMap
  finger_positions : Option FingerMap
  timestamp : Option ℚ

/-- `Calibrator.set_calibration_data(data)`: each attribute is assigned
the corresponding `data.get(...)` result. -/
def setCalibrationData (r : CalRecord) (s : CalState) : CalState :=
  { s with postureReference := r.posture_reference
           bowPositions := r.bow_positions
           fingerPositions := r.finger_positions
           calibrationTimestamp := r.timestamp }

/-! ## PostureAnalyzer (`src/utils/posture_analyzer.py`) -/

/-- Posture status strings: "Good" / "Needs adjustment" / "Poor" /
"Not available". -/
inductive Status : Type
  | good
  | needsAdjustment
  | poor
  | notAvailable
deriving DecidableEq, Repr

/-- One feedback flag; each constructor is one f-string of
`analyze_posture`, carrying the numeric offset it prints with one decimal
("... (off by {d:.1f} deg)"). -/
inductive PFlag (α : Type) : Type
  | straightenBack (off : α)       -- "Straighten your back (off by ...)"
  | adjustLeftShoulder (off : α)   -- "Adjust left shoulder position (off by ...)"
  | adjustRightShoulder (off : α)  -- "Adjust right shoulder position (off by ...)"
  | adjustHead (off : α)           -- "Adjust head position (off by ...)"
deriving DecidableEq, Repr

/-- The numeric offset a flag prints. -/
def PFlag.off {α : Type} : PFlag α → α
  | PFlag.straightenBack d => d
  | PFlag.adjustLeftShoulder d => d
  | PFlag.adjustRightShoulder d => d
  | PFlag.adjustHead d => d

/-- The detailed-feedback string of `analyze_posture`. -/
inductive Feedback (α : Type) : Type
  | refMissing      -- "Reference posture not calibrated or landmarks not detected."
  | noCurrentAngles -- "Could not calculate current posture angles."
  | looksGood       -- "Posture looks good. Maintain this position."
  | issues (flags : List (PFlag α)) -- "Posture feedback: " ++ joined flags
deriving DecidableEq, Repr

/-- `if not feedback: ... else ...` formatting of the feedback list. -/
def mkFeedback {α : Type} (flags : List (PFlag α)) : Feedback α :=
  if flags.isEmpty then Feedback.looksGood else Feedback.issues flags

/-- The current angles dict compared by `analyze_posture`; all four keys
are present, a value is `none` when the float is NaN (a NaN comparison is
false, so a NaN angle is never flagged). -/
structure CurAngles (α : Type) : Type where
  back_vertical : Option α
  left_shoulder : Option α
  right_shoulder : Option α
  neck : Option α
deriving DecidableEq, Repr

/-- The reference `angles` sub-dict: a key may be absent, in which case
the corresponding comparison is skipped. -/
structure RefAngles (α : Type) : Type where
  left_shoulder : Option α
  right_shoulder : Option α
  back : Option α
deriving DecidableEq, Repr

/-- A reference-posture record as `analyze_posture` reads it: only its
`angles` key matters to the comparison; `none` models a (non-empty)
record that lacks the `angles` key, in which case
`reference_posture.get("angles", {})` yields the empty dict. -/
structure PostureRefRec (α : Type) : Type where
  angles : Option (RefAngles α)
deriving DecidableEq, Repr

/-- Mutable state of a `PostureAnalyzer`: the capacity-10 status history. -/
structure PAState : Type where
  postureHistory : List Status
deriving DecidableEq, Repr

/-- Insertion-ordered first occurrences, the key order of the
`status_counts` dict built by iterating the history. -/
def orderedKeys (l : List Status) : List Status :=
  l.foldl (fun ks s => if s ∈ ks then ks else ks ++ [s]) []

/-- `max(status_counts.items(), key=lambda x: x[1])[0]`: Python's `max`
keeps the earlier key unless a later one is strictly larger. -/
def majorityStatus (l : List Status) (dflt : Status) : Status :=
  match orderedKeys l with
  | [] => dflt
  | k :: ks => ks.foldl (fun b k' => if l.count b < l.count k' then k' else b) k

/-- One comparison of `analyze_posture`: flag when both sides are
non-NaN and the absolute difference exceeds the 15-degree threshold
(`cur` present models a non-NaN float; a NaN comparison is false). -/
def flagIf {α : Type} [LinearOrderedField α]
    (cur : Option α) (ref : Option α) (mk : α → PFlag α) : List (PFlag α) :=
  match cur, ref with
  | some c, some r => if 15 < |c - r| then [mk |c - r|] else []
  | _, _ => []

/-- The body of `analyze_posture` from line 28 on, applied to the computed
current angles (`none` models `calculate_posture_angles` returning
`None`).  Returns the new state and the `(status, feedback)` pair. -/
def analyzeCore {α : Type} [LinearOrderedField α]
    (ca : Option (CurAngles α)) (ref : PostureRefRec α) (s : PAState) :
    PAState × (Status × Feedback α) :=
  match ca with
  | none => (s, (Status.notAvailable, Feedback.noCurrentAngles))
  | some cur =>
    let refA := ref.angles.getD ⟨none, none, none⟩
    let flags :=
      flagIf cur.back_vertical refA.back PFlag.straightenBack ++
      flagIf cur.left_shoulder refA.left_shoulder PFlag.adjustLeftShoulder ++
      flagIf cur.right_shoulder refA.right_shoulder PFlag.adjustRightShoulder ++
      flagIf cur.neck refA.back PFlag.adjustHead
    let deviations := flags.map PFlag.off
    let status :=
      match deviations.max? with
      | some m => if 30 < m then Status.poor
                  else if 15 < m then Status.needsAdjustment
                  else Status.good
      | none => Status.good
    let hist := pushTrim 10 status s.postureHistory
    let smoothed := majorityStatus hist status
    (⟨hist⟩, (smoothed, mkFeedback flags))

/-- The current posture angles of a frame as real numbers. -/
noncomputable def curAnglesReal (f : Frame) : CurAngles ℝ :=
  let a := calcPostureAngles f
  { back_vertical := angleValOpt a.back_vertical
    left_shoulder := angleValOpt a.left_shoulder
    right_shoulder := angleValOpt a.right_shoulder
    neck := angleValOpt a.neck }

/-- `PostureAnalyzer.analyze_posture(landmarks, reference_posture)`:
absent landmarks or an absent/empty reference short-circuit to
"Not available" without touching the history; otherwise the comparison
body runs on the frame's posture angles. -/
noncomputable def analyzePosture (lm : Option Frame)
    (ref : Option (PostureRefRec ℝ)) (s : PAState) :
    PAState × (Status × Feedback ℝ) :=
  match lm, ref with
  | some f, some r => analyzeCore (some (curAnglesReal f)) r s
  | _, _ => (s, (Status.notAvailable, Feedback.refMissing))

/-! ## Concrete inputs used by the theorems below -/

/-- "`step` has a stored, non-null snapshot" in a calibrator state. -/
def snapshotStored : ℕ → CalState → Prop
  | 0, s => s.postureReference.isSome
  | 1, s => ∃ m, s.bowPositions = some m ∧ m.frog.isSome
  | 2, s => ∃ m, s.bowPositions = some m ∧ m.middle.isSome
  | 3, s => ∃ m, s.bowPositions = some m ∧ m.tip.isSome
  | 4, s => ∃ m, s.fingerPositions = some m ∧ m.first.isSome
  | 5, s => ∃ m, s.fingerPositions = some m ∧ m.third.isSome
  | 6, s => ∃ m, s.fingerPositions = some m ∧ m.high.isSome
  | _ + 7, _ => False

/-- A frame with all landmarks at the origin. -/
def zeroFrame : Frame := fun _ => ⟨0, 0, 0⟩

/-- A frame whose nose is horizontally offset from the (vertically
aligned) shoulder and hip midlines: nose (1,0), shoulders (0,1) and
(2,1), hips (0,3) and (2,3), everything else at the origin. -/
def frameF : Frame := fun i =>
  if i = 0 then ⟨1, 0, 0⟩
  else if i = 11 then ⟨0, 1, 0⟩
  else if i = 12 then ⟨2, 1, 0⟩
  else if i = 23 then ⟨0, 3, 0⟩
  else if i = 24 then ⟨2, 3, 0⟩
  else ⟨0, 0, 0⟩

/-- A run of rising elbow angles: the detector reaches Down confidence 3
at the fifth sample. -/
def demoRun1 : List (Option ℚ × ℚ) :=
  [(some 10, 1), (some 20, 2), (some 30, 3), (some 40, 4)]

/-- A follow-up run of falling elbow angles between the two commits. -/
def demoRun2 : List (Option ℚ × ℚ) :=
  [(some 40, 6), (some 30, 7), (some 20, 8), (some 10, 9)]

/-- Calibrator state with landmarks present and no countdown running. -/
def calWithLm : CalState := { calInit with currentLandmarks := some zeroFrame }

/-- Calibrator state mid-countdown: countdown of 3 s started at time 0. -/
def calCounting : CalState :=
  { calWithLm with calibrationCountdown := 3, countdownStartTime := some 0 }

/-! ## Theorems -/

/-- Helper: a comparison against an absent reference key is skipped. -/
theorem flagIf_ref_none {α : Type} [LinearOrderedField α]
    (cur : Option α) (mk : α → PFlag α) : flagIf cur none mk = [] := by
  cases cur <;> rfl

set_option maxRecDepth 100000 in
unseal Rat.add Rat.sub Rat.mul Rat.inv in
/-- C1 counterexample.  Feeding a freshly reset trainer the literal
sequence Down, Up repeated 32 times (64 updates, 1 s apart, i.e. well
above the 500 ms minimum spacing) does NOT end with
`correct_count = 32`, `incorrect_count = 0` and the cursor back at 0. -/
theorem c1_literal_twinkle_run_fails :
    ¬ ((trainRun c1Input (trainInit (0 : ℚ))).correctCount = 32 ∧
       (trainRun c1Input (trainInit (0 : ℚ))).incorrectCount = 0 ∧
       (trainRun c1Input (trainInit (0 : ℚ))).currentPosition = 0) := by
  decide

set_option maxRecDepth 100000 in
unseal Rat.add Rat.sub Rat.mul Rat.inv in
/-- C1 (amended).  On the literal Down, Up × 32 sequence with 1 s
spacing, the first update only records the last direction (nothing is
scored), and each of the remaining 63 direction changes is compared
against the pattern entry left behind by the previous advance, so every
change is scored incorrect: the final state has `correct_count = 0`,
`incorrect_count = 63`, and the cursor at 31. -/
theorem c1_literal_twinkle_run_eval :
    (trainRun c1Input (trainInit (0 : ℚ))).correctCount = 0 ∧
    (trainRun c1Input (trainInit (0 : ℚ))).incorrectCount = 63 ∧
    (trainRun c1Input (trainInit (0 : ℚ))).currentPosition = 31 := by
  decide

/-- C9.  For a trainer whose last direction is `none` (freshly
constructed or freshly reset), an update with direction Down or Up only
records that direction as the last direction seen: the cursor and both
counts are untouched. -/
theorem c9_first_update_records_direction_only {α : Type} [LinearOrderedField α]
    (d : Dir) (t : α) (s : TState α)
    (hlast : s.lastDirection = none) (hd : d = Dir.down ∨ d = Dir.up) :
    (updateProgress d t s).1 = { s with lastDirection := some d } := by
  rcases hd with h | h <;> subst h <;>
    simp [updateProgress, hlast]

/-- C9 witness: the first Down fed to a fresh trainer at time 5. -/
theorem c9_first_update_records_direction_only_witness :
    (updateProgress Dir.down (5 : ℚ) (trainInit 0)).1
      = { trainInit (0 : ℚ) with lastDirection := some Dir.down } :=
  c9_first_update_records_direction_only Dir.down 5 (trainInit 0) rfl (Or.inl rfl)

/-- C6.  Invoking bow-direction detection with absent landmarks returns
the Not-detected sentinel with no angle and leaves the whole internal
state — the smoothing window of the angle calculator and the detector's
angle history, direction history, confidence counters, committed
direction and last-change timestamp — exactly unchanged. -/
theorem c6_absent_landmarks_noop (t : ℝ) (st : ACState × DetState ℝ) :
    detectBowDirection none t st = (st, (Dir.notDetected, none)) := rfl

/-- C5 counterexample.  Loading a record that is missing the bow
positions, finger positions and timestamp (only `posture_reference` is
present) does not reject the record wholesale: the posture reference is
adopted even though the timestamp stays `none`, so the calibrator does
not behave as if no calibration exists. -/
theorem c5_partial_record_adopted_counterexample :
    (setCalibrationData ⟨some ⟨[], none, none, none⟩, none, none, none⟩
        calInit).postureReference = some ⟨[], none, none, none⟩ ∧
    (setCalibrationData ⟨some ⟨[], none, none, none⟩, none, none, none⟩
        calInit).calibrationTimestamp = none :=
  ⟨rfl, rfl⟩

/-- C5 (amended).  `set_calibration_data` adopts every field of the
loaded record independently via `data.get(...)`: each present field is
installed and each missing field becomes `None`; a record with some
fields missing is therefore partially adopted, never rejected
wholesale. -/
theorem c5_fieldwise_adoption (r : CalRecord) (s : CalState) :
    setCalibrationData r s =
      { s with postureReference := r.posture_reference
               bowPositions := r.bow_positions
               fingerPositions := r.finger_positions
               calibrationTimestamp := r.timestamp } := rfl

unseal Rat.add Rat.sub Rat.mul Rat.inv in
/-- C3 counterexample.  At the coincident input a = b = (0,0,0),
c = (1,0,0) the three-point angle computation divides 0.0 by 0.0 and
produces NaN (modelled `none`), not a defined value in [0, 180]. -/
theorem c3_coincident_points_nan_counterexample :
    calcAngle ⟨0, 0, 0⟩ ⟨0, 0, 0⟩ ⟨1, 0, 0⟩ = none := by
  decide

/-- C3 (amended).  For every input with coincident points (a = b or
c = b in the x/y plane used by the computation) the three-point angle
computation completes without raising, but its float result is NaN
(modelled `none`) — propagated unchanged through `np.clip` and
`np.arccos` — rather than a defined value in [0, 180]. -/
theorem c3_coincident_points_yield_nan (a b c : Point)
    (h : (a.x = b.x ∧ a.y = b.y) ∨ (c.x = b.x ∧ c.y = b.y)) :
    calcAngle a b c = none := by
  rcases h with ⟨h1, h2⟩ | ⟨h1, h2⟩ <;>
    simp [calcAngle, h1, h2]

/-- C3 witness: the coincident pair on the c = b side, at a different
concrete input than the counterexample. -/
theorem c3_coincident_points_yield_nan_witness :
    calcAngle ⟨2, 3, 0⟩ ⟨1, 1, 0⟩ ⟨1, 1, 0⟩ = none :=
  c3_coincident_points_yield_nan ⟨2, 3, 0⟩ ⟨1, 1, 0⟩ ⟨1, 1, 0⟩ (Or.inr ⟨rfl, rfl⟩)

/-- C7.  The capture protocol of `save_position`:
(1) with no landmarks the request fails and the state — in particular
the countdown — is untouched; (2) with landmarks and no countdown
running, the request starts the 3-second countdown and fails; (3) a
request before 3 seconds have elapsed fails and changes nothing; (4) a
request at or after 3 elapsed seconds succeeds and stores a non-null
snapshot for the given step (0-6). -/
theorem c7_capture_countdown_protocol :
    (∀ (step : ℕ) (t : ℚ) (s : CalState), s.currentLandmarks = none →
        savePosition step t s = (s, false)) ∧
    (∀ (step : ℕ) (t : ℚ) (s : CalState) (f : Frame), s.currentLandmarks = some f →
        s.calibrationCountdown = 0 →
        savePosition step t s =
          ({ s with calibrationCountdown := 3, countdownStartTime := some t }, false)) ∧
    (∀ (step : ℕ) (t t0 : ℚ) (s : CalState) (f : Frame), s.currentLandmarks = some f →
        s.calibrationCountdown = 3 → s.countdownStartTime = some t0 →
        t - t0 < 3 → savePosition step t s = (s, false)) ∧
    (∀ (step : ℕ) (t t0 : ℚ) (s : CalState) (f : Frame), s.currentLandmarks = some f →
        s.calibrationCountdown = 3 → s.countdownStartTime = some t0 →
        3 ≤ t - t0 → step ≤ 6 →
        s.bowPositions.isSome → s.fingerPositions.isSome →
        (savePosition step t s).2 = true ∧ snapshotStored step (savePosition step t s).1) := by
  refine ⟨?_, ?_, ?_, ?_⟩
  · intro step t s h
    simp [savePosition, h]
  · intro step t s f hlm hcd
    simp [savePosition, hlm, hcd]
  · intro step t t0 s f hlm hcd hst hlt
    rw [savePosition]
    rw [hlm]
    simp only [hcd, hst]
    rw [if_neg (by norm_num)]
    rw [if_pos (by constructor <;> [norm_num; simpa using hlt])]
  · intro step t t0 s f hlm hcd hst hle hstep hbow hfin
    rw [savePosition]
    rw [hlm]
    simp only [hcd, hst, Option.getD_some]
    rw [if_neg (by norm_num)]
    rw [if_neg (by push_neg; intro; linarith)]
    obtain ⟨m, hm⟩ := Option.isSome_iff_exists.mp hbow
    obtain ⟨fm, hfm⟩ := Option.isSome_iff_exists.mp hfin
    interval_cases step <;>
      simp [storeStep, snapshotStored, hm, hfm]

/-- C7 witness: the four protocol cases at concrete states — a fresh
calibrator without landmarks; one with landmarks; and one mid-countdown
(started at time 0) queried at times 2 and 3. -/
theorem c7_capture_countdown_protocol_witness :
    savePosition 3 5 calInit = (calInit, false) ∧
    savePosition 0 5 calWithLm =
      ({ calWithLm with calibrationCountdown := 3, countdownStartTime := some 5 }, false) ∧
    savePosition 0 2 calCounting = (calCounting, false) ∧
    ((savePosition 0 3 calCounting).2 = true ∧
      snapshotStored 0 (savePosition 0 3 calCounting).1) :=
  ⟨c7_capture_countdown_protocol.1 3 5 calInit rfl,
   c7_capture_countdown_protocol.2.1 0 5 calWithLm zeroFrame rfl rfl,
   c7_capture_countdown_protocol.2.2.1 0 2 0 calCounting zeroFrame rfl rfl rfl
     (by norm_num),
   c7_capture_countdown_protocol.2.2.2 0 3 0 calCounting zeroFrame rfl rfl rfl
     (by norm_num) (by norm_num) rfl rfl⟩

/-- C8.  Evaluating posture against a reference whose back angle is 10
degrees when the current back-vertical angle is 28 degrees (an
18-degree difference) while the other compared angles (left shoulder,
right shoulder, and the neck — which is compared against the reference
back angle) stay within the 15-degree threshold: the per-frame status
pushed into the history is Needs-adjustment, the feedback carries the
"Straighten your back" flag with the numeral 18, and on a fresh
analyzer the returned (smoothed) status is Needs-adjustment. -/
theorem c8_back_deviation_feedback (cls crs cn rls rrs : ℚ) (s : PAState)
    (h1 : |cls - rls| ≤ 15) (h2 : |crs - rrs| ≤ 15) (h3 : |cn - 10| ≤ 15) :
    (analyzeCore (some ⟨some 28, some cls, some crs, some cn⟩)
        ⟨some ⟨some rls, some rrs, some 10⟩⟩ s).1.postureHistory
      = pushTrim 10 Status.needsAdjustment s.postureHistory ∧
    (analyzeCore (some ⟨some 28, some cls, some crs, some cn⟩)
        ⟨some ⟨some rls, some rrs, some 10⟩⟩ s).2.2
      = Feedback.issues [PFlag.straightenBack 18] ∧
    (s.postureHistory = [] →
      (analyzeCore (some ⟨some 28, some cls, some crs, some cn⟩)
          ⟨some ⟨some rls, some rrs, some 10⟩⟩ s).2.1 = Status.needsAdjustment) := by
  have e1 : flagIf (some (28:ℚ)) (some 10) PFlag.straightenBack
      = [PFlag.straightenBack 18] := by
    have h : |(28:ℚ) - 10| = 18 := by norm_num
    simp only [flagIf, h]
    norm_num
  have e2 : flagIf (some cls) (some rls) PFlag.adjustLeftShoulder = [] := by
    simp [flagIf, not_lt.mpr h1]
  have e3 : flagIf (some crs) (some rrs) PFlag.adjustRightShoulder = [] := by
    simp [flagIf, not_lt.mpr h2]
  have e4 : flagIf (some cn) (some (10:ℚ)) PFlag.adjustHead = [] := by
    simp [flagIf, not_lt.mpr h3]
  simp only [analyzeCore, Option.getD_some, e1, e2, e3, e4]
  norm_num [mkFeedback, PFlag.off]
  intro h
  rw [h]
  decide

/-- C8 witness: current angles (28, 0, 0, 10) against reference angles
(0, 0, back 10) on a fresh analyzer. -/
theorem c8_back_deviation_feedback_witness :
    (analyzeCore (α := ℚ) (some ⟨some 28, some 0, some 0, some 10⟩)
        ⟨some ⟨some 0, some 0, some 10⟩⟩ ⟨[]⟩).2.1 = Status.needsAdjustment ∧
    (analyzeCore (α := ℚ) (some ⟨some 28, some 0, some 0, some 10⟩)
        ⟨some ⟨some 0, some 0, some 10⟩⟩ ⟨[]⟩).2.2
      = Feedback.issues [PFlag.straightenBack 18] :=
  ⟨(c8_back_deviation_feedback 0 0 10 0 0 ⟨[]⟩ (by norm_num) (by norm_num)
      (by norm_num)).2.2 rfl,
   (c8_back_deviation_feedback 0 0 10 0 0 ⟨[]⟩ (by norm_num) (by norm_num)
      (by norm_num)).2.1⟩

/-- C10.  For every landmark frame and every present (non-empty)
reference record that lacks the `angles` key, the posture evaluation
pushes a per-frame status of Good, returns the "looks good" feedback
text, and on a fresh analyzer reports Good — not Not-available. -/
theorem c10_missing_angles_key_good (f : Frame) (r : PostureRefRec ℝ) (s : PAState)
    (h : r.angles = none) :
    (analyzePosture (some f) (some r) s).2.2 = Feedback.looksGood ∧
    (analyzePosture (some f) (some r) s).1.postureHistory
      = pushTrim 10 Status.good s.postureHistory ∧
    (s.postureHistory = [] →
      (analyzePosture (some f) (some r) s).2.1 = Status.good) := by
  simp only [analyzePosture, analyzeCore, h, Option.getD_none,
    flagIf_ref_none, List.append_nil, List.map_nil, List.max?_nil, mkFeedback]
  norm_num
  intro hh
  rw [hh]
  decide

/-- C10 witness: the all-origin frame against a reference record without
an `angles` key, on a fresh analyzer. -/
theorem c10_missing_angles_key_good_witness :
    (analyzePosture (some zeroFrame) (some ⟨none⟩) ⟨[]⟩).2.2 = Feedback.looksGood ∧
    (analyzePosture (some zeroFrame) (some ⟨none⟩) ⟨[]⟩).2.1 = Status.good :=
  ⟨(c10_missing_angles_key_good zeroFrame ⟨none⟩ ⟨[]⟩ rfl).1,
   (c10_missing_angles_key_good zeroFrame ⟨none⟩ ⟨[]⟩ rfl).2.2 rfl⟩

/-- Helper: the calibration-time "back" angle of `frameF` is the data
(dot 4, squared norms 2 and 10) of the nose-vertex angle. -/
theorem extract_back_frameF : (extractPostureData frameF).back = some ⟨4, 2, 10⟩ := by
  unfold extractPostureData frameF
  norm_num [calcAngle]

/-- Helper: the back-vertical angle of `frameF` has data
(dot 2, squared norms 4 and 1): its cosine is 1 and its value 0. -/
theorem posture_backvert_frameF :
    (calcPostureAngles frameF).back_vertical = some ⟨2, 4, 1⟩ := by
  unfold calcPostureAngles frameF
  norm_num [calcVerticalAngle, midpointP]

/-- Helper: the vertical back angle of `frameF` is 0 degrees. -/
theorem angleVal_vertical_frameF : angleVal ⟨2, 4, 1⟩ = 0 := by
  unfold angleVal clip1
  have h4 : Real.sqrt 4 = 2 := by
    rw [show (4:ℝ) = 2 ^ 2 by norm_num, Real.sqrt_sq (by norm_num)]
  norm_num [h4, Real.sqrt_one, Real.arccos_one]

/-- Helper: the nose-vertex back angle of `frameF` is not 0 degrees
(its cosine 4/√20 is strictly below 1). -/
theorem angleVal_nose_frameF : angleVal ⟨4, 2, 10⟩ ≠ 0 := by
  unfold angleVal clip1
  have hs : Real.sqrt 2 * Real.sqrt 10 = Real.sqrt 20 := by
    rw [← Real.sqrt_mul (by norm_num : (0:ℝ) ≤ 2)]
    norm_num
  have h20 : (4:ℝ) < Real.sqrt 20 := by
    rw [show (4:ℝ) = Real.sqrt 16 by
      rw [show (16:ℝ) = 4 ^ 2 by norm_num, Real.sqrt_sq (by norm_num)]]
    exact Real.sqrt_lt_sqrt (by norm_num) (by norm_num)
  have hpos : (0:ℝ) < Real.sqrt 20 := by positivity
  have hv : (4:ℝ) / (Real.sqrt 2 * Real.sqrt 10) < 1 := by
    rw [hs, div_lt_one hpos]
    exact h20
  have hv0 : (0:ℝ) ≤ (4:ℝ) / (Real.sqrt 2 * Real.sqrt 10) := by positivity
  intro h
  rcases mul_eq_zero.mp h with h1 | h2
  · rw [Real.arccos_eq_zero] at h1
    have : max (-1) (min 1 ((4:ℝ) / (Real.sqrt 2 * Real.sqrt 10))) < 1 := by
      rw [min_eq_right hv.le, max_eq_right (by linarith)]
      exact hv
    linarith
  · have : Real.pi ≠ 0 := Real.pi_ne_zero
    field_simp at h2

/-- Helper: at `frameF` the stored back angle and the back-vertical
angle denote different real numbers. -/
theorem back_ne_backvert_frameF :
    angleValOpt (extractPostureData frameF).back
      ≠ angleValOpt (calcPostureAngles frameF).back_vertical := by
  rw [extract_back_frameF, posture_backvert_frameF]
  simp only [angleValOpt, ne_eq, Option.some.injEq, angleVal_vertical_frameF]
  exact angleVal_nose_frameF

/-- C2 counterexample.  At the concrete frame `frameF` — shoulder and
hip midpoints vertically aligned (back-vertical angle 0 degrees) but the
nose horizontally offset — the "back" angle stored by the calibrator
(the angle at the nose between left shoulder and left hip, about 26.6
degrees) differs from the back-vertical angle the posture evaluator
later compares it against. -/
theorem c2_back_angle_counterexample :
    angleValOpt (extractPostureData frameF).back
      ≠ angleValOpt (calcPostureAngles frameF).back_vertical :=
  back_ne_backvert_frameF

/-- C2 (amended).  The "back" angle captured at calibration step 0 is
the three-point angle with vertex at the nose (landmark 0) between the
left shoulder (11) and the left hip (23) — not the shoulder-midpoint to
hip-midpoint vertical angle, from which it differs on some frames
(e.g. `frameF`). -/
theorem c2_back_angle_is_nose_vertex_angle :
    (∀ f : Frame, (extractPostureData f).back = calcAngle (f 11) (f 0) (f 23)) ∧
    ∃ f : Frame, angleValOpt (extractPostureData f).back
      ≠ angleValOpt (calcPostureAngles f).back_vertical :=
  ⟨fun _ => rfl, frameF, back_ne_backvert_frameF⟩

/-- Helper: one detector step either leaves the committed direction and
the last-change timestamp alone, or it is a commit: more than 0.4 s
elapsed since the previous committed change, the timestamp is set to the
current time, and the winning confidence counter after the trend update
is at least the threshold 3. -/
theorem detectUpdate_cases {α : Type} [LinearOrderedField α]
    (ang : Option α) (t : α) (s : DetState α) :
    ((detectUpdate ang t s).1.currentDirection = s.currentDirection ∧
     (detectUpdate ang t s).1.lastDirectionChange = s.lastDirectionChange) ∨
    (2/5 < t - s.lastDirectionChange ∧
     (detectUpdate ang t s).1.lastDirectionChange = t ∧
     ∃ a, ang = some a ∧
       3 ≤ (detConfAfter a s).val (detConfAfter a s).argmax) := by
  cases ang with
  | none => exact Or.inl ⟨rfl, rfl⟩
  | some a =>
    simp only [detectUpdate]
    by_cases hl : (pushTrim 5 a s.angleHistory).length < 3
    · rw [if_pos hl]
      exact Or.inl ⟨rfl, rfl⟩
    · rw [if_neg hl]
      by_cases hc : ((if 3 ≤ (detConfAfter a s).val (detConfAfter a s).argmax
          then (detConfAfter a s).argmax else s.currentDirection) ≠ s.currentDirection ∧
          2/5 < t - s.lastDirectionChange)
      · rw [if_pos hc]
        right
        refine ⟨hc.2, rfl, a, rfl, ?_⟩
        by_contra h3
        exact hc.1 (if_neg h3)
      · rw [if_neg hc]
        exact Or.inl ⟨rfl, rfl⟩

/-- Helper: the last-change timestamp after a run is bounded below by any
bound on the initial timestamp and on all the run's input times. -/
theorem detRun_lastChange_ge {α : Type} [LinearOrderedField α]
    (l : List (Option α × α)) (s : DetState α) (c : α)
    (hs : c ≤ s.lastDirectionChange) (hl : ∀ p ∈ l, c ≤ p.2) :
    c ≤ (detRun l s).lastDirectionChange := by
  induction l generalizing s with
  | nil => exact hs
  | cons p rest ih =>
    have hstep : c ≤ ((detectUpdate p.1 p.2 s).1).lastDirectionChange := by
      rcases detectUpdate_cases p.1 p.2 s with ⟨_, h2⟩ | ⟨_, h2, _⟩
      · rw [h2]; exact hs
      · rw [h2]; exact hl p (List.mem_cons_self p rest)
    exact ih _ hstep (fun q hq => hl q (List.mem_cons_of_mem p hq))

/-- C4.  (1) A step that changes the committed direction can only happen
when the winning confidence counter (after the trend update) is at least
the threshold 3 and strictly more than 0.4 s (hence at least 400 ms)
have elapsed since the previous committed change, and it stamps the
change time; (2) consequently, in any run whose later input times do not
precede a commit's time, two committed direction changes are separated
by more than 0.4 s — alternating inputs faster than that cannot produce
two commits within one 400 ms window. -/
theorem c4_commit_gating_and_separation :
    (∀ (α : Type) [LinearOrderedField α] (ang : Option α) (t : α) (s : DetState α),
      (detectUpdate ang t s).1.currentDirection ≠ s.currentDirection →
      2/5 < t - s.lastDirectionChange ∧
      (detectUpdate ang t s).1.lastDirectionChange = t ∧
      ∃ a, ang = some a ∧ 3 ≤ (detConfAfter a s).val (detConfAfter a s).argmax) ∧
    (∀ (α : Type) [LinearOrderedField α] (l1 l2 : List (Option α × α))
      (a1 : Option α) (t1 : α) (a2 : Option α) (t2 : α) (s0 : DetState α),
      (∀ p ∈ l2, t1 ≤ p.2) →
      (detectUpdate a1 t1 (detRun l1 s0)).1.currentDirection
        ≠ (detRun l1 s0).currentDirection →
      (detectUpdate a2 t2 (detRun l2 (detectUpdate a1 t1 (detRun l1 s0)).1)).1.currentDirection
        ≠ (detRun l2 (detectUpdate a1 t1 (detRun l1 s0)).1).currentDirection →
      2/5 < t2 - t1) := by
  constructor
  · intro α _ ang t s h
    rcases detectUpdate_cases ang t s with ⟨h1, _⟩ | hr
    · exact absurd h1 h
    · exact hr
  · intro α _ l1 l2 a1 t1 a2 t2 s0 htimes h1 h2
    rcases detectUpdate_cases a1 t1 (detRun l1 s0) with ⟨hc, _⟩ | ⟨_, hlc, _⟩
    · exact absurd hc h1
    · have hge : t1 ≤ (detRun l2 (detectUpdate a1 t1 (detRun l1 s0)).1).lastDirectionChange :=
        detRun_lastChange_ge l2 _ t1 (le_of_eq hlc.symm) htimes
      rcases detectUpdate_cases a2 t2 (detRun l2 (detectUpdate a1 t1 (detRun l1 s0)).1) with
        ⟨hc2, _⟩ | ⟨helap, _, _⟩
      · exact absurd hc2 h2
      · linarith

set_option maxRecDepth 100000 in
unseal Rat.add Rat.sub Rat.mul Rat.inv in
/-- C4 witness: on the rising run `demoRun1` the fifth sample (angle 50
at time 5) commits Down with confidence 3 and more than 0.4 s elapsed;
after the falling run `demoRun2` the sample (angle 0, time 10) commits
Up; the two commits are 5 s > 0.4 s apart. -/
theorem c4_commit_gating_and_separation_witness :
    ((2:ℚ)/5 < 5 - (detRun demoRun1 (detInit 0)).lastDirectionChange ∧
     (detectUpdate (some 50) 5 (detRun demoRun1 (detInit 0))).1.lastDirectionChange = 5 ∧
     ∃ a, (some (50:ℚ)) = some a ∧
       3 ≤ (detConfAfter a (detRun demoRun1 (detInit 0))).val
             (detConfAfter a (detRun demoRun1 (detInit 0))).argmax) ∧
    (2:ℚ)/5 < 10 - 5 :=
  ⟨c4_commit_gating_and_separation.1 ℚ (some 50) 5 (detRun demoRun1 (detInit 0))
     (by decide),
   c4_commit_gating_and_separation.2 ℚ demoRun1 demoRun2 (some 50) 5 (some 0) 10
     (detInit 0) (by decide) (by decide) (by decide)⟩
